import Mathlib

/-!
Verification of the `analyze` orchestration in `src/miles/analyze.py` and of
the milestoning quantities its specification describes.

The repository ships a single visible source file: the orchestration function

  def analyze(kernel, stationary_distributions, transition_matrix,
              lag_time_matrix, stationary_flux, local_mfpts,
              stationary_probability) -> float:
      kernel.save_distributions()
      distributions, q = kernel.compute_distributions()
      save_distributions(distributions, stationary_distributions)
      kernel.matrices.save(transition_matrix, lag_time_matrix,
                           stationary_flux, local_mfpts,
                           stationary_probability)
      return kernel.matrices.mfpt

The kernel's methods (`compute_distributions`, `save_distributions`,
`matrices.save`) live elsewhere in the `miles` package and are modelled here
from the specification.  `analyze` itself is embedded as a pure function
returning the post-state of its kernel argument, the ordered trace of the
effectful calls it performs, and its return value (an exception from the
solve propagates as `Except.error`).  Floating-point numbers are modelled
as rationals.
-/

/-- A length-`n` vector of (model) floating-point values. -/
abbrev Vec (n : ℕ) := Fin n → ℚ

/-- An `n × n` matrix of (model) floating-point values. -/
abbrev Mat (n : ℕ) := Fin n → Fin n → ℚ

/-- Modelled from the spec: the StationaryDistribution object returned by
`compute_distributions` (§4.2), a length-`n` vector `π` with milestone
indexing preserved; the method body is not under `src/`. -/
structure StationaryDistribution (n : ℕ) where
  pi : Vec n

/-- Modelled from the spec: the error taxonomy of §7; `DataError` and
`SolverError` are the two fatal errors `compute_distributions` can raise. -/
inductive AnalysisError where
  | dataError
  | solverError

/-- Modelled from the spec: the `matrices` result bundle owned by the kernel,
re-exposing the five tensors `P`, `τ`, flux, local MFPT vector, `π` for joint
persistence, together with the scalar global MFPT field `mfpt` (§3,
Ownership); the defining code is not under `src/`. -/
structure Matrices (n : ℕ) where
  P : Mat n
  lag : Mat n
  flux : Vec n
  local_mfpts : Vec n
  probability : Vec n
  mfpt : ℚ

/-- Modelled from the spec: the TransitionKernel as seen by `analyze`
(§3, §9): it owns the immutable `matrices` bundle, and its
`compute_distributions` method deterministically yields either the pair
(StationaryDistribution, auxiliary `q`) or a fatal `DataError`/`SolverError`
(§4.2, §7); the method bodies are not under `src/`. -/
structure TransitionKernel (n : ℕ) where
  matrices : Matrices n
  compute_distributions : Except AnalysisError (StationaryDistribution n × Vec n)

/-- The effectful calls `analyze` performs, in the order it performs them.
`kernel_save_distributions` is the argumentless call `kernel.save_distributions()`
on line 49; `compute_distributions` marks completion of the solve on line 51;
`save_distributions` is the module-level call on line 53 carrying the saved
object and its destination path; `matrices_save` is the call on lines 55-57
carrying the persisted bundle and its five destination paths in positional
order. -/
inductive Event (n : ℕ) where
  | kernel_save_distributions
  | compute_distributions
  | save_distributions (d : StationaryDistribution n) (path : String)
  | matrices_save (m : Matrices n)
      (transition_path lag_path flux_path mfpt_path probability_path : String)

/-- Result of one call of `analyze`: the post-state of the kernel argument,
the trace of effectful calls in execution order, and the value returned to
the caller (or the propagated exception). -/
structure AnalyzeResult (n : ℕ) where
  kernel : TransitionKernel n
  trace : List (Event n)
  ret : Except AnalysisError ℚ

/-- Shallow embedding of `analyze` (src/miles/analyze.py, lines 11-59).
Line 49 calls `kernel.save_distributions()`; line 51 unpacks
`distributions, q = kernel.compute_distributions()` (a raised error
propagates, aborting the rest); line 53 saves `distributions` to the
`stationary_distributions` path; lines 55-57 call `kernel.matrices.save`
with the five paths in positional order; line 59 returns
`kernel.matrices.mfpt`.  The variable `q` is bound and never used, as in
the source. -/
def analyze (kernel : TransitionKernel n)
    (stationary_distributions transition_matrix lag_time_matrix
     stationary_flux local_mfpts stationary_probability : String) :
    AnalyzeResult n :=
  match kernel.compute_distributions with
  | .error e =>
      { kernel := kernel
        trace := [.kernel_save_distributions]
        ret := .error e }
  | .ok (distributions, _q) =>
      { kernel := kernel
        trace := [.kernel_save_distributions,
                  .compute_distributions,
                  .save_distributions distributions stationary_distributions,
                  .matrices_save kernel.matrices transition_matrix
                    lag_time_matrix stationary_flux local_mfpts
                    stationary_probability]
        ret := .ok kernel.matrices.mfpt }

/-- Modelled from the spec: which orchestration calls are persistence writes.
§4.4 names `save_distributions` and `matrices.save` as the persistence
operations; `TransitionKernel.save_distributions` is not under `src/`, and
its name denotes the same saving of distribution data, so the argumentless
call on line 49 is classified as a persistence write as well.  The solve
itself writes nothing. -/
def Event.isWrite : Event n → Bool
  | .kernel_save_distributions => true
  | .compute_distributions => false
  | .save_distributions _ _ => true
  | .matrices_save _ _ _ _ _ _ => true

/-- The caller-supplied destination paths written by an orchestration call.
The call on line 49 receives none of the six path arguments, so it cannot
write to a caller-supplied destination; line 53 writes its one path;
lines 55-57 write their five paths. -/
def Event.callerPaths : Event n → List String
  | .kernel_save_distributions => []
  | .compute_distributions => []
  | .save_distributions _ path => [path]
  | .matrices_save _ p1 p2 p3 p4 p5 => [p1, p2, p3, p4, p5]

/-- Whether an event is a write to a caller-supplied destination path
(the module-level `save_distributions` call or `matrices.save`). -/
def Event.isCallerWrite : Event n → Bool
  | .save_distributions _ _ => true
  | .matrices_save _ _ _ _ _ _ => true
  | _ => false

/-- Whether an event is the `matrices.save` call. -/
def Event.isMatricesSave : Event n → Bool
  | .matrices_save _ _ _ _ _ _ => true
  | _ => false

/-- Whether an event is the module-level `save_distributions` call. -/
def Event.isSaveDistributions : Event n → Bool
  | .save_distributions _ _ => true
  | _ => false

/-- What a serialized datum is: the distribution object, a matrix, or a
vector. -/
inductive WriteData (n : ℕ) where
  | dist (d : StationaryDistribution n)
  | mat (M : Mat n)
  | vec (v : Vec n)

/-- Modelled from the spec: §4.4, `matrices.save(transition_path,
lag_time_path, flux_path, mfpt_path, probability_path)` serializes each of
the five tensors `P`, `τ`, flux, local MFPT vector, `π` independently to its
own named destination; the method body is not under `src/`. -/
def matricesSaveTargets (m : Matrices n)
    (transition_path lag_path flux_path mfpt_path probability_path : String) :
    List (String × WriteData n) :=
  [(transition_path, .mat m.P),
   (lag_path, .mat m.lag),
   (flux_path, .vec m.flux),
   (mfpt_path, .vec m.local_mfpts),
   (probability_path, .vec m.probability)]

/-- The ordering property asserted by the spec's control-flow sentence:
every completion of the solve precedes every persistence write in the
trace. -/
def SolveBeforeWrites (tr : List (Event n)) : Prop :=
  ∀ i j, (hi : i < tr.length) → (hj : j < tr.length) →
    tr.get ⟨i, hi⟩ = Event.compute_distributions →
    (tr.get ⟨j, hj⟩).isWrite = true → i < j

/-- As `SolveBeforeWrites`, but restricted to writes addressed to the
caller-supplied destination paths. -/
def SolveBeforeCallerWrites (tr : List (Event n)) : Prop :=
  ∀ i j, (hi : i < tr.length) → (hj : j < tr.length) →
    tr.get ⟨i, hi⟩ = Event.compute_distributions →
    (tr.get ⟨j, hj⟩).isCallerWrite = true → i < j

/-- Modelled from the spec: §4.3, the local-MFPT first-step recursion for the
kernel `P`, lag-time matrix `τ`, and absorbing product set: `m i = 0` for
product milestones and `m i = ∑ j, P i j * (τ i j + m j)` for the others;
the MFPTEngine code is not under `src/`. -/
def isLocalMFPT (P τ : Mat n) (product : Finset (Fin n)) (m : Vec n) : Prop :=
  (∀ i ∈ product, m i = 0) ∧
  ∀ i, i ∉ product → m i = ∑ j, P i j * (τ i j + m j)

/-- Modelled from the spec: §4.3, `global_mfpt(m, reactant_set, π)`, the
reactant-weighted average `∑ i ∈ reactant, π i * m i / ∑ i ∈ reactant, π i`;
the MFPTEngine code is not under `src/`. -/
def global_mfpt (m : Vec n) (reactant : Finset (Fin n)) (w : Vec n) : ℚ :=
  (∑ i ∈ reactant, w i * m i) / (∑ i ∈ reactant, w i)

/-- A finite path of positive-probability transitions from a milestone to
the product set (the spec's "finite path to the product set"). -/
inductive ReachesProduct (P : Mat n) (product : Finset (Fin n)) : Fin n → Prop
  | base {i : Fin n} : i ∈ product → ReachesProduct P product i
  | step {i j : Fin n} : 0 < P i j → ReachesProduct P product j →
      ReachesProduct P product i

/-- A finite path of positive-probability transitions, starting outside the
product set, on which some step has a strictly positive lag time. -/
inductive PosTimePath (P τ : Mat n) (product : Finset (Fin n)) : Fin n → Prop
  | here {i j : Fin n} : i ∉ product → 0 < P i j → 0 < τ i j →
      PosTimePath P τ product i
  | there {i j : Fin n} : i ∉ product → 0 < P i j →
      PosTimePath P τ product j → PosTimePath P τ product i

/-- The transition matrix of the spec's 3-milestone concrete scenario (§8):
milestone 2 is absorbing, `P = [[0,1,0],[0,0,1],[0,0,1]]`. -/
def P3 : Mat 3 := ![![0, 1, 0], ![0, 0, 1], ![0, 0, 1]]

/-- The lag-time matrix of the spec's 3-milestone concrete scenario (§8):
`τ = [[0,2,0],[0,0,3],[0,0,0]]`. -/
def lag3 : Mat 3 := ![![0, 2, 0], ![0, 0, 3], ![0, 0, 0]]

/-- The product set of the 3-milestone scenario: milestone 2. -/
def product3 : Finset (Fin 3) := {2}

/-- The reactant set of the 3-milestone scenario: milestone 0. -/
def reactant3 : Finset (Fin 3) := {0}

/-- The local MFPT vector the spec requires for the 3-milestone scenario. -/
def m3 : Vec 3 := ![5, 3, 0]

/-- The reactant-supported weight vector used as a concrete instance for the
3-milestone scenario (reactant milestone 0 carries all the weight). -/
def w3 : Vec 3 := ![1, 0, 0]

/-- A 2-milestone kernel matrix with one positive-probability transition from
the reactant milestone 0 into the product milestone 1. -/
def P2z : Mat 2 := ![![0, 1], ![0, 0]]

/-- An all-zero lag-time matrix for the 2-milestone kernel: every observed
transit time is 0, which the data model (§3, elapsed time ≥ 0) permits. -/
def lag2z : Mat 2 := ![![0, 0], ![0, 0]]

/-- The product set of the 2-milestone kernel: milestone 1. -/
def product2 : Finset (Fin 2) := {1}

/-- The reactant set of the 2-milestone kernel: milestone 0. -/
def reactant2 : Finset (Fin 2) := {0}

/-- The local MFPT vector of the 2-milestone kernel with zero lag times. -/
def m2z : Vec 2 := ![0, 0]

/-- A weight vector giving the reactant milestone all the weight. -/
def w2 : Vec 2 := ![1, 0]

/-- A concrete 1-milestone matrices bundle used to instantiate the
orchestration theorems. -/
def matrices1 : Matrices 1 :=
  { P := ![![1]]
    lag := ![![0]]
    flux := ![1]
    local_mfpts := ![0]
    probability := ![1]
    mfpt := 7 }

/-- A concrete stationary distribution on one milestone. -/
def dist1 : StationaryDistribution 1 := ⟨![1]⟩

/-- A concrete kernel whose solve succeeds, returning `dist1` and the
auxiliary weight vector `![1]`. -/
def kernel1 : TransitionKernel 1 :=
  { matrices := matrices1
    compute_distributions := .ok (dist1, ![1]) }

/-- A concrete kernel whose solve raises `SolverError`. -/
def kernelErr : TransitionKernel 1 :=
  { matrices := matrices1
    compute_distributions := .error .solverError }

/-- If every entry of `P`, `τ` and `m` is nonnegative and `m` satisfies the
local-MFPT recursion, then `m` is strictly positive at every milestone from
which a positive-probability path with a strictly positive lag-time step
leaves the product's complement. -/
theorem localMFPT_pos {n : ℕ} {P τ : Mat n} {product : Finset (Fin n)}
    {m : Vec n} (hP : ∀ i j, 0 ≤ P i j) (hτ : ∀ i j, 0 ≤ τ i j)
    (hm : ∀ j, 0 ≤ m j) (hrec : isLocalMFPT P τ product m) {i : Fin n}
    (hpath : PosTimePath P τ product i) : 0 < m i := by
  induction hpath with
  | @here i j hip hPij hτij =>
    rw [hrec.2 i hip]
    refine Finset.sum_pos' (fun k _ => mul_nonneg (hP i k)
      (add_nonneg (hτ i k) (hm k))) ⟨j, Finset.mem_univ j, ?_⟩
    exact mul_pos hPij (lt_of_lt_of_le hτij (le_add_of_nonneg_right (hm j)))
  | @there i j hip hPij _hpath ih =>
    rw [hrec.2 i hip]
    refine Finset.sum_pos' (fun k _ => mul_nonneg (hP i k)
      (add_nonneg (hτ i k) (hm k))) ⟨j, Finset.mem_univ j, ?_⟩
    exact mul_pos hPij (add_pos_of_nonneg_of_pos (hτ i j) ih)

/-- Uniform scaling of all lag times by `k` turns a solution of the
local-MFPT recursion into a solution of the scaled recursion, scaled by
`k`. -/
theorem localMFPT_scale {n : ℕ} {P τ : Mat n} {product : Finset (Fin n)}
    {m : Vec n} (k : ℚ) (hrec : isLocalMFPT P τ product m) :
    isLocalMFPT P (fun i j => k * τ i j) product (fun i => k * m i) := by
  constructor
  · intro i hi
    show k * m i = 0
    rw [hrec.1 i hi, mul_zero]
  · intro i hi
    show k * m i = _
    calc k * m i = k * ∑ j, P i j * (τ i j + m j) := by rw [hrec.2 i hi]
    _ = ∑ j, k * (P i j * (τ i j + m j)) := by rw [Finset.mul_sum]
    _ = ∑ j, P i j * (k * τ i j + k * m j) :=
        Finset.sum_congr rfl fun j _ => by ring

/-- The reactant-weighted average is homogeneous: scaling the local MFPT
vector by `k` scales the global MFPT by `k`. -/
theorem global_mfpt_scale {n : ℕ} (m : Vec n) (reactant : Finset (Fin n))
    (w : Vec n) (k : ℚ) :
    global_mfpt (fun i => k * m i) reactant w = k * global_mfpt m reactant w := by
  unfold global_mfpt
  rw [← mul_div_assoc, Finset.mul_sum]
  congr 1
  exact Finset.sum_congr rfl fun i _ => by ring

/-- The global MFPT is strictly positive when the reactant weights are
nonnegative, the local MFPTs are nonnegative, and some reactant milestone
has strictly positive weight and strictly positive local MFPT. -/
theorem global_mfpt_pos {n : ℕ} {m : Vec n} {reactant : Finset (Fin n)}
    {w : Vec n} (hw : ∀ i ∈ reactant, 0 ≤ w i) (hm : ∀ i, 0 ≤ m i)
    (i0 : Fin n) (hi0 : i0 ∈ reactant) (hw0 : 0 < w i0) (hm0 : 0 < m i0) :
    0 < global_mfpt m reactant w :=
  div_pos
    (Finset.sum_pos' (fun i hi => mul_nonneg (hw i hi) (hm i))
      ⟨i0, hi0, mul_pos hw0 hm0⟩)
    (Finset.sum_pos' hw ⟨i0, hi0, hw0⟩)

/-- The local-MFPT recursion for the 3-milestone scenario has `![5, 3, 0]`
as its unique solution. -/
theorem localMFPT3_unique {m : Vec 3} (h : isLocalMFPT P3 lag3 product3 m) :
    m = m3 := by
  have h2 : m 2 = 0 := h.1 2 (by decide)
  have h1 : m 1 = 3 := by
    have e1 := h.2 1 (by decide)
    rw [Fin.sum_univ_three] at e1
    norm_num [P3, lag3, h2] at e1
    exact e1
  have h0 : m 0 = 5 := by
    have e0 := h.2 0 (by decide)
    rw [Fin.sum_univ_three] at e0
    norm_num [P3, lag3, h1] at e0
    exact e0
  funext i
  fin_cases i
  · show m 0 = m3 0
    rw [h0]; norm_num [m3]
  · show m 1 = m3 1
    rw [h1]; norm_num [m3]
  · show m 2 = m3 2
    rw [h2]; norm_num [m3]

/-- `![5, 3, 0]` does solve the 3-milestone local-MFPT recursion. -/
theorem localMFPT3_solves : isLocalMFPT P3 lag3 product3 m3 := by
  constructor
  · intro i hi
    fin_cases hi
    norm_num [m3]
  · intro i hi
    fin_cases i
    · norm_num [m3, P3, lag3, Fin.sum_univ_three]
    · norm_num [m3, P3, lag3, Fin.sum_univ_three]
    · simp [product3] at hi

/-- C1: for every call of `analyze` whose solve succeeds, the returned value
is exactly the `mfpt` field of the kernel's `matrices` bundle (a model
floating-point scalar), and this is the function's only return value. -/
theorem analyze_returns_global_mfpt {n : ℕ} (kernel : TransitionKernel n)
    (sd tm ltm sf lm sp : String) (r : StationaryDistribution n × Vec n)
    (h : kernel.compute_distributions = .ok r) :
    (analyze kernel sd tm ltm sf lm sp).ret = .ok kernel.matrices.mfpt := by
  obtain ⟨d, q⟩ := r
  unfold analyze
  rw [h]

/-- Witness for C1 at the concrete kernel `kernel1`. -/
theorem analyze_returns_global_mfpt_witness :
    (analyze kernel1 "d" "t" "l" "f" "m" "p").ret = .ok kernel1.matrices.mfpt :=
  analyze_returns_global_mfpt kernel1 "d" "t" "l" "f" "m" "p" (dist1, ![1]) rfl

/-- C2 (as stated) is false: in the execution of `analyze` on `kernel1`, the
persistence call `kernel.save_distributions()` (line 49) precedes the
completion of the solve (line 51), so the solve does not complete before
every persistence write. -/
theorem solve_before_writes_counterexample :
    ¬ SolveBeforeWrites (analyze kernel1 "d" "t" "l" "f" "m" "p").trace := by
  intro h
  have h10 := h 1 0 (by norm_num [analyze, kernel1]) (by norm_num [analyze, kernel1]) rfl rfl
  exact absurd h10 (by norm_num)

/-- C2 (amended): in every execution of `analyze` whose solve succeeds, the
first effectful call is `kernel.save_distributions()`; the solve completes
before every write to a caller-supplied destination path (the
`save_distributions` call and `matrices.save`); and the scalar returned
after all events is the kernel's global MFPT. -/
theorem analyze_ordering {n : ℕ} (kernel : TransitionKernel n)
    (sd tm ltm sf lm sp : String) (r : StationaryDistribution n × Vec n)
    (h : kernel.compute_distributions = .ok r) :
    (analyze kernel sd tm ltm sf lm sp).trace.head? =
      some .kernel_save_distributions ∧
    SolveBeforeCallerWrites (analyze kernel sd tm ltm sf lm sp).trace ∧
    (analyze kernel sd tm ltm sf lm sp).ret = .ok kernel.matrices.mfpt := by
  obtain ⟨d, q⟩ := r
  unfold analyze
  rw [h]
  refine ⟨rfl, ?_, rfl⟩
  intro i j hi hj hci hwj
  simp only [List.length_cons, List.length_nil] at hi hj
  interval_cases i <;> interval_cases j <;>
    simp_all [Event.isCallerWrite, List.get]

/-- Witness for C2 (amended) at the concrete kernel `kernel1`. -/
theorem analyze_ordering_witness :
    (analyze kernel1 "d" "t" "l" "f" "m" "p").trace.head? =
      some .kernel_save_distributions ∧
    SolveBeforeCallerWrites (analyze kernel1 "d" "t" "l" "f" "m" "p").trace ∧
    (analyze kernel1 "d" "t" "l" "f" "m" "p").ret = .ok kernel1.matrices.mfpt :=
  analyze_ordering kernel1 "d" "t" "l" "f" "m" "p" (dist1, ![1]) rfl

/-- C3 (as stated) is false: on the concrete kernel `kernelErr` whose solve
raises `SolverError`, `analyze` propagates the error, yet its trace already
contains a persistence write — the `kernel.save_distributions()` call of
line 49 ran before the solve, so the filesystem is not left untouched. -/
theorem abort_clean_counterexample :
    (analyze kernelErr "d" "t" "l" "f" "m" "p").ret = .error .solverError ∧
    ∃ ev ∈ (analyze kernelErr "d" "t" "l" "f" "m" "p").trace,
      ev.isWrite = true := by
  refine ⟨rfl, Event.kernel_save_distributions, ?_, rfl⟩
  simp [analyze, kernelErr]

/-- C3 (amended): if the solve raises `DataError` or `SolverError`, `analyze`
aborts with that error and no caller-supplied output destination has been
written — the only effectful call performed is `kernel.save_distributions()`
of line 49, which receives none of the six output paths. -/
theorem analyze_abort_no_output {n : ℕ} (kernel : TransitionKernel n)
    (sd tm ltm sf lm sp : String) (e : AnalysisError)
    (h : kernel.compute_distributions = .error e) :
    (analyze kernel sd tm ltm sf lm sp).ret = .error e ∧
    (∀ ev ∈ (analyze kernel sd tm ltm sf lm sp).trace,
      ev.callerPaths = []) ∧
    (analyze kernel sd tm ltm sf lm sp).trace =
      [.kernel_save_distributions] := by
  unfold analyze
  rw [h]
  refine ⟨rfl, ?_, rfl⟩
  intro ev hev
  simp only [List.mem_singleton] at hev
  subst hev
  rfl

/-- Witness for C3 (amended) at the concrete kernel `kernelErr`. -/
theorem analyze_abort_no_output_witness :
    (analyze kernelErr "d" "t" "l" "f" "m" "p").ret = .error .solverError ∧
    (∀ ev ∈ (analyze kernelErr "d" "t" "l" "f" "m" "p").trace,
      ev.callerPaths = []) ∧
    (analyze kernelErr "d" "t" "l" "f" "m" "p").trace =
      [.kernel_save_distributions] :=
  analyze_abort_no_output kernelErr "d" "t" "l" "f" "m" "p" .solverError rfl

/-- C4: a successful solve yields exactly the pair of the stationary
distribution object and the auxiliary weight vector, in that order: the
first component is the object `analyze` persists as the stationary
distribution. -/
theorem compute_distributions_pair {n : ℕ} (kernel : TransitionKernel n)
    (sd tm ltm sf lm sp : String) (r : StationaryDistribution n × Vec n)
    (h : kernel.compute_distributions = .ok r) :
    kernel.compute_distributions = .ok (r.1, r.2) ∧
    Event.save_distributions r.1 sd ∈
      (analyze kernel sd tm ltm sf lm sp).trace := by
  obtain ⟨d, q⟩ := r
  refine ⟨h, ?_⟩
  unfold analyze
  rw [h]
  simp

/-- Witness for C4 at the concrete kernel `kernel1`. -/
theorem compute_distributions_pair_witness :
    kernel1.compute_distributions = .ok ((dist1, (![1] : Vec 1)).1, (dist1, (![1] : Vec 1)).2) ∧
    Event.save_distributions (dist1, (![1] : Vec 1)).1 "d" ∈
      (analyze kernel1 "d" "t" "l" "f" "m" "p").trace :=
  compute_distributions_pair kernel1 "d" "t" "l" "f" "m" "p" (dist1, ![1]) rfl

/-- C5: in every execution of `analyze` whose solve succeeds, the trace
contains exactly one `matrices.save` call, carrying the kernel's bundle and
the five destination paths in the positional order transition matrix,
lag-time matrix, stationary flux, local MFPTs, stationary probability; its
serialization targets pair each of the five tensors with its own named
destination. -/
theorem matrices_save_once {n : ℕ} (kernel : TransitionKernel n)
    (sd tm ltm sf lm sp : String) (r : StationaryDistribution n × Vec n)
    (h : kernel.compute_distributions = .ok r) :
    ((analyze kernel sd tm ltm sf lm sp).trace.filter Event.isMatricesSave)
      = [.matrices_save kernel.matrices tm ltm sf lm sp] ∧
    matricesSaveTargets kernel.matrices tm ltm sf lm sp =
      [(tm, .mat kernel.matrices.P),
       (ltm, .mat kernel.matrices.lag),
       (sf, .vec kernel.matrices.flux),
       (lm, .vec kernel.matrices.local_mfpts),
       (sp, .vec kernel.matrices.probability)] := by
  obtain ⟨d, q⟩ := r
  unfold analyze
  rw [h]
  exact ⟨rfl, rfl⟩

/-- Witness for C5 at the concrete kernel `kernel1`. -/
theorem matrices_save_once_witness :
    ((analyze kernel1 "d" "t" "l" "f" "m" "p").trace.filter
        Event.isMatricesSave)
      = [.matrices_save kernel1.matrices "t" "l" "f" "m" "p"] ∧
    matricesSaveTargets kernel1.matrices "t" "l" "f" "m" "p" =
      [("t", .mat kernel1.matrices.P),
       ("l", .mat kernel1.matrices.lag),
       ("f", .vec kernel1.matrices.flux),
       ("m", .vec kernel1.matrices.local_mfpts),
       ("p", .vec kernel1.matrices.probability)] :=
  matrices_save_once kernel1 "d" "t" "l" "f" "m" "p" (dist1, ![1]) rfl

/-- C6: in every execution of `analyze` whose solve succeeds, the computed
distributions object is persisted exactly once via `save_distributions`, to
the caller's `stationary_distributions` path, and this write happens after
the solve completes. -/
theorem save_distributions_once {n : ℕ} (kernel : TransitionKernel n)
    (sd tm ltm sf lm sp : String) (r : StationaryDistribution n × Vec n)
    (h : kernel.compute_distributions = .ok r) :
    ((analyze kernel sd tm ltm sf lm sp).trace.filter
        Event.isSaveDistributions)
      = [.save_distributions r.1 sd] ∧
    ∃ i j, ∃ (hi : i < (analyze kernel sd tm ltm sf lm sp).trace.length)
      (hj : j < (analyze kernel sd tm ltm sf lm sp).trace.length),
      i < j ∧
      (analyze kernel sd tm ltm sf lm sp).trace.get ⟨i, hi⟩ =
        .compute_distributions ∧
      (analyze kernel sd tm ltm sf lm sp).trace.get ⟨j, hj⟩ =
        .save_distributions r.1 sd := by
  obtain ⟨d, q⟩ := r
  unfold analyze
  rw [h]
  exact ⟨rfl, 1, 2, by norm_num, by norm_num, by norm_num, rfl, rfl⟩

/-- Witness for C6 at the concrete kernel `kernel1`. -/
theorem save_distributions_once_witness :
    ((analyze kernel1 "d" "t" "l" "f" "m" "p").trace.filter
        Event.isSaveDistributions)
      = [.save_distributions (dist1, (![1] : Vec 1)).1 "d"] ∧
    ∃ i j, ∃ (hi : i < (analyze kernel1 "d" "t" "l" "f" "m" "p").trace.length)
      (hj : j < (analyze kernel1 "d" "t" "l" "f" "m" "p").trace.length),
      i < j ∧
      (analyze kernel1 "d" "t" "l" "f" "m" "p").trace.get ⟨i, hi⟩ =
        .compute_distributions ∧
      (analyze kernel1 "d" "t" "l" "f" "m" "p").trace.get ⟨j, hj⟩ =
        .save_distributions (dist1, (![1] : Vec 1)).1 "d" :=
  save_distributions_once kernel1 "d" "t" "l" "f" "m" "p" (dist1, ![1]) rfl

/-- C7: `analyze` never mutates its kernel argument: the post-state kernel
and its `matrices` bundle (with every tensor and the `mfpt` field reachable
from it) are identical to the pre-state, on both the success and the error
path. -/
theorem analyze_preserves_kernel {n : ℕ} (kernel : TransitionKernel n)
    (sd tm ltm sf lm sp : String) :
    (analyze kernel sd tm ltm sf lm sp).kernel = kernel ∧
    (analyze kernel sd tm ltm sf lm sp).kernel.matrices = kernel.matrices := by
  unfold analyze
  cases hc : kernel.compute_distributions with
  | error e => exact ⟨rfl, rfl⟩
  | ok r =>
    obtain ⟨d, q⟩ := r
    exact ⟨rfl, rfl⟩

/-- C10: the six path arguments never influence the value `analyze` returns:
for a fixed kernel, any two choices of the six paths give the same result
(success value or propagated error). -/
theorem analyze_paths_noninterference {n : ℕ} (kernel : TransitionKernel n)
    (sd1 tm1 ltm1 sf1 lm1 sp1 sd2 tm2 ltm2 sf2 lm2 sp2 : String) :
    (analyze kernel sd1 tm1 ltm1 sf1 lm1 sp1).ret =
      (analyze kernel sd2 tm2 ltm2 sf2 lm2 sp2).ret := by
  unfold analyze
  cases hc : kernel.compute_distributions with
  | error e => rfl
  | ok r =>
    obtain ⟨d, q⟩ := r
    rfl

/-- The 2-milestone zero-lag recursion has the zero vector as its unique
solution. -/
theorem localMFPT2z_unique {m : Vec 2} (h : isLocalMFPT P2z lag2z product2 m) :
    m = m2z := by
  have h1 : m 1 = 0 := h.1 1 (by decide)
  have h0 : m 0 = 0 := by
    have e0 := h.2 0 (by decide)
    rw [Fin.sum_univ_two] at e0
    norm_num [P2z, lag2z, h1] at e0
    exact e0
  funext i
  fin_cases i
  · show m 0 = m2z 0
    rw [h0]; norm_num [m2z]
  · show m 1 = m2z 1
    rw [h1]; norm_num [m2z]

/-- C8 (as stated) is false: in the 2-milestone kernel `P2z` whose only lag
times are zero, the reactant milestone 0 has a finite positive-probability
path to the product set, the local-MFPT recursion is solved by the zero
vector, and the resulting global MFPT is 0, not strictly positive. -/
theorem global_mfpt_pos_counterexample :
    (0 : Fin 2) ∈ reactant2 ∧
    ReachesProduct P2z product2 0 ∧
    isLocalMFPT P2z lag2z product2 m2z ∧
    ¬ 0 < global_mfpt m2z reactant2 w2 := by
  refine ⟨by decide,
    @ReachesProduct.step 2 P2z product2 0 1 (by norm_num [P2z])
      (ReachesProduct.base (by decide)), ⟨?_, ?_⟩, ?_⟩
  · intro i hi
    fin_cases hi
    norm_num [m2z]
  · intro i hi
    fin_cases i
    · norm_num [m2z, P2z, lag2z, Fin.sum_univ_two]
    · simp [product2] at hi
  · norm_num [global_mfpt, reactant2, Finset.sum_singleton, m2z, w2]

/-- C8 (amended): for nonnegative `P`, `τ`, `m` and reactant weights, if `m`
solves the local-MFPT recursion and some reactant milestone with strictly
positive weight starts a positive-probability path carrying a strictly
positive lag time, then the global MFPT is strictly positive; moreover,
uniformly scaling all lag times by `k` scales the local solution and the
global MFPT by exactly `k`, so for `k ≥ 1` the global MFPT does not
decrease. -/
theorem global_mfpt_pos_and_scaling {n : ℕ} {P τ : Mat n}
    {product reactant : Finset (Fin n)} {m w : Vec n}
    (hP : ∀ i j, 0 ≤ P i j) (hτ : ∀ i j, 0 ≤ τ i j) (hm : ∀ j, 0 ≤ m j)
    (hw : ∀ i ∈ reactant, 0 ≤ w i) (hrec : isLocalMFPT P τ product m)
    (i0 : Fin n) (hi0 : i0 ∈ reactant) (hw0 : 0 < w i0)
    (hpath : PosTimePath P τ product i0) :
    0 < global_mfpt m reactant w ∧
    ∀ k : ℚ,
      isLocalMFPT P (fun i j => k * τ i j) product (fun i => k * m i) ∧
      global_mfpt (fun i => k * m i) reactant w =
        k * global_mfpt m reactant w ∧
      (1 ≤ k → global_mfpt m reactant w ≤
        global_mfpt (fun i => k * m i) reactant w) := by
  have hpos := global_mfpt_pos hw hm i0 hi0 hw0
    (localMFPT_pos hP hτ hm hrec hpath)
  refine ⟨hpos, fun k => ⟨localMFPT_scale k hrec,
    global_mfpt_scale m reactant w k, fun hk => ?_⟩⟩
  rw [global_mfpt_scale m reactant w k]
  exact le_mul_of_one_le_left (le_of_lt hpos) hk

/-- Witness for C8 (amended) at the 3-milestone scenario, with scaling
factor 2. -/
theorem global_mfpt_pos_and_scaling_witness :
    0 < global_mfpt m3 reactant3 w3 ∧
    global_mfpt (fun i => 2 * m3 i) reactant3 w3 =
      2 * global_mfpt m3 reactant3 w3 := by
  have h := @global_mfpt_pos_and_scaling 3 P3 lag3 product3 reactant3 m3 w3
    (by intro i j; fin_cases i <;> fin_cases j <;> norm_num [P3])
    (by intro i j; fin_cases i <;> fin_cases j <;> norm_num [lag3])
    (by intro j; fin_cases j <;> norm_num [m3])
    (by intro i hi; fin_cases hi; norm_num [w3])
    localMFPT3_solves 0 (by decide) (by norm_num [w3])
    (@PosTimePath.here 3 P3 lag3 product3 0 1 (by decide)
      (by norm_num [P3]) (by norm_num [lag3]))
  exact ⟨h.1, (h.2 2).2.1⟩

/-- C9: for the 3-milestone chain with milestone 0 the reactant, milestone 2
the product, `P = [[0,1,0],[0,0,1],[0,0,1]]` and `τ = [[0,2,0],[0,0,3],[0,0,0]]`,
the local-MFPT recursion is solved by `[5, 3, 0]` and by nothing else, the
product milestone's local MFPT is 0, and the reactant-weighted global MFPT
is 5 for every weight vector giving the reactant nonzero weight. -/
theorem three_chain_scenario :
    isLocalMFPT P3 lag3 product3 m3 ∧
    (∀ m : Vec 3, isLocalMFPT P3 lag3 product3 m → m = m3) ∧
    m3 0 = 5 ∧ m3 1 = 3 ∧ m3 2 = 0 ∧
    (∀ w : Vec 3, w 0 ≠ 0 → global_mfpt m3 reactant3 w = 5) := by
  refine ⟨localMFPT3_solves, fun m hm => localMFPT3_unique hm,
    by norm_num [m3], by norm_num [m3], by norm_num [m3], fun w hw => ?_⟩
  unfold global_mfpt
  rw [show reactant3 = {0} from rfl, Finset.sum_singleton,
    Finset.sum_singleton, show m3 0 = 5 by norm_num [m3],
    mul_comm, mul_div_assoc, div_self hw, mul_one]

/-- Witness for C9: the global MFPT evaluates to 5 at the concrete weight
vector `w3`. -/
theorem three_chain_scenario_witness :
    global_mfpt m3 reactant3 w3 = 5 :=
  three_chain_scenario.2.2.2.2.2 w3 (by norm_num [w3])
